import Mathlib

/-!
Verification development for the WhatsApp transcript analyzer
(`whatsapp_analyzer.py`): a shallow embedding of the parser
(`parse_whatsapp_export`) and the analyzers (`get_basic_stats`,
`get_message_activity_by_hour`, `get_message_activity_by_day`,
`get_emoji_analysis`, `get_word_analysis`, `get_sentiment_analysis`),
together with theorems settling the specification claims.

Modelling conventions:
* Text is `List Char`; lines come from `readlines()`/`splitlines()` and
  therefore contain no newline characters.
* Python's `str.strip()` and the regex class `\s` are modelled with the
  ASCII whitespace set (space, tab, CR, LF, VT, FF); the inputs relevant
  to the claims are ASCII.
* The regex `\[(\d{1,2}/\d{1,2}/\d{2,4}),\s*(\d{1,2}:\d{2}:\d{2})\]\s*(.*?):\s*(.*)`
  is deterministic on every input (each quantifier is followed by a
  character that cannot extend it), so it is embedded as a direct
  character-level parser, `matchMessageStart`.
* `datetime.strptime(.., "%d/%m/%Y %H:%M:%S")` is embedded as
  `pyStrptimeDMYHMS`, following CPython's `_strptime` field regexes
  (`%Y` is exactly four digits) plus the `datetime` constructor's
  range validation; it returns `none` where Python raises `ValueError`.
* Floats (sentiment scores, averages) are modelled as `Rat`; the external
  libraries `emoji` and `TextBlob` are opaque function parameters.
-/

namespace WA

def chars (s : String) : List Char := s.data

/-- ASCII model of Python whitespace (`str.strip`, regex `\s`). -/
def isSpace (c : Char) : Bool :=
  c == ' ' || c == '\t' || c == '\n' || c == '\r' ||
  c == Char.ofNat 11 || c == Char.ofNat 12

/-- Python `str.strip()`: drop leading and trailing whitespace. -/
def stripChars (l : List Char) : List Char :=
  ((l.dropWhile isSpace).reverse.dropWhile isSpace).reverse

/-- Python `needle in hay` for strings. -/
def containsSub (needle : List Char) : List Char → Bool
  | [] => needle.isEmpty
  | c :: t => needle.isPrefixOf (c :: t) || containsSub needle t

/-- Python `str.lower()` (ASCII model; the substrings compared are ASCII). -/
def lowerList (l : List Char) : List Char := l.map Char.toLower

def digitVal (c : Char) : Nat := c.toNat - 48

/-- Combined date+time produced by a successful `datetime.strptime`. -/
structure DateTime where
  year : Nat
  month : Nat
  day : Nat
  hour : Nat
  minute : Nat
  second : Nat
  deriving DecidableEq, Inhabited

/-- `datetime.date` value (the `.date()` of a parsed timestamp). -/
structure PyDate where
  year : Nat
  month : Nat
  day : Nat
  deriving DecidableEq, Inhabited

/-- `datetime.time` value (the `.time()` of a parsed timestamp). -/
structure PyTime where
  hour : Nat
  minute : Nat
  second : Nat
  deriving DecidableEq, Inhabited

/-- Gregorian leap year, as in Python's `calendar`/`datetime`. -/
def isLeap (y : Nat) : Bool := (y % 4 == 0 && y % 100 != 0) || y % 400 == 0

def daysInMonth (y m : Nat) : Nat :=
  if m == 2 then (if isLeap y then 29 else 28)
  else if m == 4 || m == 6 || m == 9 || m == 11 then 30
  else 31

/--
One numeric field of CPython's `_strptime` regexes: the two-digit
alternatives are tried first, then the one-digit alternative.  Because in
the format `"%d/%m/%Y %H:%M:%S"` every such field is followed by a
non-digit literal (or the end of the string), this deterministic reading
agrees with the backtracking regex.
-/
def take2or1 (ok2 ok1 : Nat → Bool) : List Char → Option (Nat × List Char)
  | a :: b :: rest =>
    if a.isDigit then
      if b.isDigit && ok2 (10 * digitVal a + digitVal b) then
        some (10 * digitVal a + digitVal b, rest)
      else if ok1 (digitVal a) then some (digitVal a, b :: rest)
      else none
    else none
  | [a] => if a.isDigit && ok1 (digitVal a) then some (digitVal a, []) else none
  | [] => none

def expectChar (c : Char) : List Char → Option (List Char)
  | x :: rest => if x == c then some rest else none
  | [] => none

/-- `%Y` in CPython `_strptime` is exactly four digits. -/
def take4digits : List Char → Option (Nat × List Char)
  | a :: b :: c :: d :: rest =>
    if a.isDigit && b.isDigit && c.isDigit && d.isDigit then
      some (((digitVal a * 10 + digitVal b) * 10 + digitVal c) * 10 + digitVal d, rest)
    else none
  | _ => none

/--
`datetime.strptime(s, "%d/%m/%Y %H:%M:%S")`.  Field regexes:
`%d = 3[01]|[12]\d|0[1-9]|[1-9]`, `%m = 1[0-2]|0[1-9]|[1-9]`,
`%Y = \d\d\d\d`, `%H = 2[0-3]|[0-1]\d|\d`, `%M = [0-5]\d|\d`,
`%S = 6[0-1]|[0-5]\d|\d`; the whole string must be consumed
("unconverted data remains" otherwise), and the `datetime` constructor
additionally requires `1 <= year`, `day <= daysInMonth` and
`second <= 59`.  `none` models a raised `ValueError`.
-/
def pyStrptimeDMYHMS (s : List Char) : Option DateTime := do
  let (d, r1) ← take2or1 (fun n => 1 ≤ n && n ≤ 31) (fun n => 1 ≤ n) s
  let r2 ← expectChar '/' r1
  let (m, r3) ← take2or1 (fun n => 1 ≤ n && n ≤ 12) (fun n => 1 ≤ n) r2
  let r4 ← expectChar '/' r3
  let (y, r5) ← take4digits r4
  let r6 ← expectChar ' ' r5
  let (hh, r7) ← take2or1 (fun n => n ≤ 23) (fun _ => true) r6
  let r8 ← expectChar ':' r7
  let (mm, r9) ← take2or1 (fun n => n ≤ 59) (fun _ => true) r8
  let r10 ← expectChar ':' r9
  let (ss, r11) ← take2or1 (fun n => n ≤ 61) (fun _ => true) r10
  if r11.isEmpty && 1 ≤ y && d ≤ daysInMonth y m && ss ≤ 59 then
    some ⟨y, m, d, hh, mm, ss⟩
  else none

/--
`date_str.replace('/', '/20', 1)`: replace the first `/` of the date
string by `/20`.
-/
def replaceFirstSlash : List Char → List Char
  | [] => []
  | c :: rest =>
    if c == '/' then '/' :: '2' :: '0' :: rest else c :: replaceFirstSlash rest

/--
The two-digit-year transformation of `parse_whatsapp_export`:
`if len(date_str.split('/')[2]) == 2: date_str = date_str.replace('/', '/20', 1)`.
(The date capture always has exactly two slashes, so index 2 exists.)
-/
def transformDate (d : List Char) : List Char :=
  if ((d.splitOn '/').getD 2 []).length == 2 then replaceFirstSlash d else d

/--
The bracketed header of the message-start regex:
`\[(\d{1,2}/\d{1,2}/\d{2,4}),\s*(\d{1,2}:\d{2}:\d{2})\]`.
Returns the date capture, the time capture, and the rest of the line
after the closing bracket.  The bounded digit runs are deterministic:
each is followed by a non-digit literal, so a run longer than the bound
can never match.
-/
def matchHeader (cs : List Char) : Option (List Char × List Char × List Char) :=
  match cs with
  | '[' :: r0 =>
    let dayMonthRest := r0.span Char.isDigit
    if 1 ≤ dayMonthRest.1.length ∧ dayMonthRest.1.length ≤ 2 then
      match dayMonthRest.2 with
      | '/' :: r2 =>
        let monRest := r2.span Char.isDigit
        if 1 ≤ monRest.1.length ∧ monRest.1.length ≤ 2 then
          match monRest.2 with
          | '/' :: r4 =>
            let yrRest := r4.span Char.isDigit
            if 2 ≤ yrRest.1.length ∧ yrRest.1.length ≤ 4 then
              match yrRest.2 with
              | ',' :: r6 =>
                let r7 := r6.dropWhile isSpace
                let hhRest := r7.span Char.isDigit
                if 1 ≤ hhRest.1.length ∧ hhRest.1.length ≤ 2 then
                  match hhRest.2 with
                  | ':' :: m1 :: m2 :: ':' :: s1 :: s2 :: ']' :: r9 =>
                    if m1.isDigit && m2.isDigit && s1.isDigit && s2.isDigit then
                      some (dayMonthRest.1 ++ '/' :: monRest.1 ++ '/' :: yrRest.1,
                            hhRest.1 ++ ':' :: m1 :: m2 :: ':' :: s1 :: s2 :: [],
                            r9)
                    else none
                  | _ => none
                else none
              | _ => none
            else none
          | _ => none
        else none
      | _ => none
    else none
  | _ => none

/--
`re.match` of the full message-start pattern
`\[(\d{1,2}/\d{1,2}/\d{2,4}),\s*(\d{1,2}:\d{2}:\d{2})\]\s*(.*?):\s*(.*)`
on a (stripped) line: after the bracket, `\s*` greedily eats whitespace,
the lazy `(.*?)` stops at the first colon (the match fails if there is
none), and the body is the rest after the colon with `\s*` removed.
Returns the four captures `(date, time, sender, body)`.
-/
def matchMessageStart (cs : List Char) :
    Option (List Char × List Char × List Char × List Char) :=
  match matchHeader cs with
  | none => none
  | some (d, t, r9) =>
    let r10 := r9.dropWhile isSpace
    if r10.contains ':' then
      some (d, t, r10.takeWhile (fun c => c ≠ ':'),
            ((r10.dropWhile (fun c => c ≠ ':')).drop 1).dropWhile isSpace)
    else none

example : matchMessageStart (chars "[15/12/2023, 14:30:25] John Doe: Hello there")
    = some (chars "15/12/2023", chars "14:30:25", chars "John Doe", chars "Hello there") := by
  decide

example : matchMessageStart (chars "[15/12/23, 14:30:25] John: Hi")
    = some (chars "15/12/23", chars "14:30:25", chars "John", chars "Hi") := by decide

example : transformDate (chars "15/12/23") = chars "15/2012/23" := by decide

example : pyStrptimeDMYHMS (chars "15/2012/23 14:30:25") = none := by decide

example : pyStrptimeDMYHMS (chars "15/12/2023 14:30:25")
    = some ⟨2023, 12, 15, 14, 30, 25⟩ := by decide

/-- `datetime.strftime('%A')`: weekday names, indexed with 0 = Sunday. -/
def dayNames : List String :=
  ["Sunday", "Monday", "Tuesday", "Wednesday", "Thursday", "Friday", "Saturday"]

/-- Sakamoto's day-of-week formula for the proleptic Gregorian calendar. -/
def sakamotoIndex (y m d : Nat) : Nat :=
  let t := [0, 3, 2, 5, 0, 3, 5, 1, 4, 6, 2, 4]
  let y2 := if m < 3 then y - 1 else y
  (y2 + y2 / 4 - y2 / 100 + y2 / 400 + t.getD (m - 1) 0 + d) % 7

def dayName (y m d : Nat) : String := dayNames.getD (sakamotoIndex y m d) ""

def monthNames : List String :=
  ["January", "February", "March", "April", "May", "June", "July", "August",
   "September", "October", "November", "December"]

/-- `datetime.strftime('%B')`. -/
def monthName (m : Nat) : String := monthNames.getD (m - 1) ""

example : dayName 2024 1 1 = "Monday" := by decide
example : dayName 2023 12 15 = "Friday" := by decide

/--
One parsed message: the dict built by `parse_whatsapp_export`
(`datetime`, `date`, `time`, `sender`, `message`, `hour`, `day_of_week`,
`month`, `year`).
-/
structure Msg where
  datetime : DateTime
  date : PyDate
  time : PyTime
  sender : List Char
  message : List Char
  hour : Nat
  day_of_week : String
  month : String
  year : Nat
  deriving DecidableEq, Inhabited

/-- The dict literal of `parse_whatsapp_export` for a matched line. -/
def mkMsg (dt : DateTime) (s m : List Char) : Msg :=
  { datetime := dt
    date := ⟨dt.year, dt.month, dt.day⟩
    time := ⟨dt.hour, dt.minute, dt.second⟩
    sender := stripChars s
    message := stripChars m
    hour := dt.hour
    day_of_week := dayName dt.year dt.month dt.day
    month := monthName dt.month
    year := dt.year }

/-- `self.participants.add(sender)`: a Python `set`, modelled as a
duplicate-free list in insertion order. -/
def addParticipant (ps : List (List Char)) (s : List Char) : List (List Char) :=
  if ps.contains s then ps else ps ++ [s]

/--
The continuation-line filter of `parse_whatsapp_export`: the line is
ignored if it starts with the invisible U+200E mark or contains one of
the six media placeholders case-insensitively.
-/
def isSuppressedLine (ls : List Char) : Bool :=
  (match ls with
   | c :: _ => c == Char.ofNat 0x200E
   | [] => false)
  || containsSub (chars "image omitted") (lowerList ls)
  || containsSub (chars "media omitted") (lowerList ls)
  || containsSub (chars "document omitted") (lowerList ls)
  || containsSub (chars "audio omitted") (lowerList ls)
  || containsSub (chars "video omitted") (lowerList ls)
  || containsSub (chars "sticker omitted") (lowerList ls)

/--
`current_message['message'] += ' ' + line_stripped` on the last element
of `self.messages` (the `current_message` dict is always the last list
element when it exists, and the code also writes `self.messages[-1]`).
-/
def appendToLast (ls : List Char) : List Msg → List Msg
  | [] => []
  | [m] => [{ m with message := m.message ++ ' ' :: ls }]
  | m :: m2 :: rest => m :: appendToLast ls (m2 :: rest)

/--
The loop state of `parse_whatsapp_export`: the accumulated
`self.messages` and `self.participants`, and whether `current_message`
is set (when it is, it is the last element of `messages`).
-/
structure ParseState where
  messages : List Msg
  participants : List (List Char)
  hasCurrent : Bool
  deriving DecidableEq

/--
The body of the `for line in lines` loop of `parse_whatsapp_export`:
skip blank lines; on a regex match parse the (possibly year-expanded)
timestamp — dropping the line on `ValueError` without touching
`current_message` — and otherwise append the new message; on a
non-matching line append it to the current message unless it is a
suppressed placeholder or no current message exists.
-/
def processLine (st : ParseState) (line : List Char) : ParseState :=
  if (stripChars line).isEmpty then st
  else
    match matchMessageStart (stripChars line) with
    | some (d, t, s, m) =>
      match pyStrptimeDMYHMS (transformDate d ++ ' ' :: t) with
      | none => st
      | some dt =>
        { messages := st.messages ++ [mkMsg dt s m]
          participants := addParticipant st.participants (stripChars s)
          hasCurrent := true }
    | none =>
      if st.hasCurrent then
        if isSuppressedLine (stripChars line) then st
        else { st with messages := appendToLast (stripChars line) st.messages }
      else st

/--
An entry of the `date` column.  `pd.DataFrame(self.messages)` stores the
`datetime.date` objects (dtype `object`); `get_basic_stats` coerces the
column with `pd.to_datetime`, turning each entry into a pandas
`Timestamp` of the same calendar date (a different Python value:
`Timestamp('2024-01-01') == date(2024, 1, 1)` is `False`).
-/
inductive DateVal where
  | pyDate (d : PyDate)
  | timestamp (d : PyDate)
  deriving DecidableEq, Inhabited

/-- The calendar date an entry of the `date` column denotes. -/
def DateVal.dateOf : DateVal → PyDate
  | pyDate d => d
  | timestamp d => d

def DateVal.isPyDate : DateVal → Bool
  | pyDate _ => true
  | timestamp _ => false

/-- `pd.to_datetime` on one entry of the `date` column. -/
def toTs : DateVal → DateVal
  | DateVal.pyDate d => DateVal.timestamp d
  | DateVal.timestamp d => DateVal.timestamp d

/--
`self.df`, the tabular materialization `pd.DataFrame(self.messages)`:
one column per message field, plus the derived columns `emoji_count`
and `sentiment` attached later by `get_emoji_analysis` and
`get_sentiment_analysis` (absent until then).
-/
structure Frame where
  datetimeCol : List DateTime
  dateCol : List DateVal
  timeCol : List PyTime
  senderCol : List (List Char)
  messageCol : List (List Char)
  hourCol : List Nat
  dayOfWeekCol : List String
  monthCol : List String
  yearCol : List Nat
  emojiCountCol : Option (List Nat) := none
  sentimentCol : Option (List Rat) := none
  deriving DecidableEq

/-- `pd.DataFrame(self.messages)`. -/
def mkFrame (msgs : List Msg) : Frame :=
  { datetimeCol := msgs.map (fun m => m.datetime)
    dateCol := msgs.map (fun m => DateVal.pyDate m.date)
    timeCol := msgs.map (fun m => m.time)
    senderCol := msgs.map (fun m => m.sender)
    messageCol := msgs.map (fun m => m.message)
    hourCol := msgs.map (fun m => m.hour)
    dayOfWeekCol := msgs.map (fun m => m.day_of_week)
    monthCol := msgs.map (fun m => m.month)
    yearCol := msgs.map (fun m => m.year) }

/-- The `WhatsAppAnalyzer` instance state: `self.messages`,
`self.participants`, `self.df` (the `file_path` is modelled by the
`Load` argument of `parse_whatsapp_export`). -/
structure Analyzer where
  messages : List Msg
  participants : List (List Char)
  df : Option Frame
  deriving DecidableEq

/-- `WhatsAppAnalyzer.__init__`. -/
def initAnalyzer : Analyzer := { messages := [], participants := [], df := none }

/-- What `_read_file_content` produced: the line list, or the exception
it raised (`FileNotFoundError`, or any other I/O / decode / PDF error). -/
inductive Load where
  | ok (lines : List (List Char))
  | notFound
  | failed
  deriving DecidableEq

/-- The observable outcome of one `parse_whatsapp_export` call: the new
instance state, the returned boolean, and whether a `logging.error` was
emitted by an exception handler. -/
structure ParseReturn where
  analyzer : Analyzer
  returned : Bool
  loggedError : Bool
  deriving DecidableEq

/-- The whole `for line in lines` loop, started (as in the code) with
the instance's accumulated messages and participants and a fresh
`current_message = None`. -/
def runLines (a : Analyzer) (lines : List (List Char)) : ParseState :=
  lines.foldl processLine
    { messages := a.messages, participants := a.participants, hasCurrent := false }

/--
`parse_whatsapp_export`: run the line loop over the existing
(`self.messages`, `self.participants`) — they are never reset — with a
fresh `current_message = None`; build `self.df` and return `True` iff
the accumulated message list is non-empty; both `FileNotFoundError` and
other exceptions are caught, logged via `logging.error`, and turn into
a `False` return.
-/
def parse_whatsapp_export (a : Analyzer) (load : Load) : ParseReturn :=
  match load with
  | Load.notFound => { analyzer := a, returned := false, loggedError := true }
  | Load.failed => { analyzer := a, returned := false, loggedError := true }
  | Load.ok lines =>
    if (runLines a lines).messages.isEmpty then
      { analyzer := { a with messages := (runLines a lines).messages
                             participants := (runLines a lines).participants }
        returned := false
        loggedError := false }
    else
      { analyzer := { messages := (runLines a lines).messages
                      participants := (runLines a lines).participants
                      df := some (mkFrame (runLines a lines).messages) }
        returned := true
        loggedError := false }

example :
    ((parse_whatsapp_export initAnalyzer
        (Load.ok [chars "[15/12/2023, 14:30:25] John Doe: Hello! How are you?",
                  chars "[16/12/2023, 09:15:20] Jane: Morning"])).analyzer.messages.map
      (fun m => m.sender)) = [chars "John Doe", chars "Jane"] := by decide

/-- Days before month `m` in year `y`. -/
def daysBeforeMonth (y m : Nat) : Nat :=
  (List.range (m - 1)).foldl (fun acc i => acc + daysInMonth y (i + 1)) 0

/-- Proleptic-Gregorian ordinal of a date (Rata Die, as in
`datetime.date.toordinal`); differences of ordinals are the `.days` of
date/timestamp subtraction. -/
def toOrdinal (d : PyDate) : Nat :=
  365 * (d.year - 1) + (d.year - 1) / 4 - (d.year - 1) / 100 + (d.year - 1) / 400
    + daysBeforeMonth d.year d.month + d.day

def ordVal (v : DateVal) : Nat := toOrdinal v.dateOf

/-- Binary minimum of two `date`-column values under the timestamp
order (pandas `Series.min`). -/
def dvMin (a b : DateVal) : DateVal := if ordVal b < ordVal a then b else a

def dvMax (a b : DateVal) : DateVal := if ordVal a < ordVal b then b else a

/-- Ordinal of the minimum of a `date` column (`0` for the empty
column, which never occurs). -/
def minOrdOf (l : List DateVal) : Nat :=
  match l.map ordVal with
  | [] => 0
  | x :: xs => xs.foldl min x

def maxOrdOf (l : List DateVal) : Nat :=
  match l.map ordVal with
  | [] => 0
  | x :: xs => xs.foldl max x

/-- Distinct values of a list in first-occurrence order (Python
`Counter` key order / `set` cardinality). -/
def firstOccurrences {α : Type} [BEq α] (l : List α) : List α :=
  l.foldl (fun acc s => if acc.contains s then acc else acc ++ [s]) []

/-- Insert into a count-descending list, after entries of equal count
(stable tie-break). -/
def insertByCountDesc {α : Type} (p : α × Nat) : List (α × Nat) → List (α × Nat)
  | [] => [p]
  | q :: rest => if q.2 < p.2 then p :: q :: rest else q :: insertByCountDesc p rest

/-- `value_counts().to_dict()` / `Counter.most_common()`: pairs
(value, count) sorted by count descending, ties in first-occurrence
order. -/
def valueCountsDesc {α : Type} [BEq α] (l : List α) : List (α × Nat) :=
  ((firstOccurrences l).map (fun s => (s, l.countP (fun x => x == s)))).foldl
    (fun acc p => insertByCountDesc p acc) []

/-- `Counter.most_common(n)`. -/
def mostCommon {α : Type} [BEq α] (n : Nat) (l : List α) : List (α × Nat) :=
  (valueCountsDesc l).take n

/-- The `stats` dict of `get_basic_stats`. -/
structure BasicStats where
  total_messages : Nat
  total_participants : Nat
  date_range_start : DateVal
  date_range_end : DateVal
  total_days : Int
  messages_per_day : Rat
  messages_per_participant : List (List Char × Nat)
  deriving DecidableEq

/-- The in-place coercion `self.df['date'] = pd.to_datetime(self.df['date'])`,
applied when the column dtype is `object` (i.e. it still holds
`datetime.date` objects). -/
def convertDateCol (f : Frame) : List DateVal :=
  if f.dateCol.any (fun v => v.isPyDate) then f.dateCol.map toTs else f.dateCol

/-- Number of rows, `len(self.df)`.  All columns of a frame built by
`mkFrame` have this length. -/
def nrows (f : Frame) : Nat := f.messageCol.length

/--
The statistics part of `get_basic_stats` over a frame whose `date`
column has already been coerced.  An empty frame is unreachable
(`self.df` is only ever assigned from a non-empty message list); pandas
would propagate `NaT` there, modelled as `none`.
-/
def basicStatsOf (nParticipants : Nat) (f : Frame) : Option BasicStats :=
  match convertDateCol f with
  | [] => none
  | d0 :: ds =>
    some { total_messages := nrows f
           total_participants := nParticipants
           date_range_start := ds.foldl dvMin d0
           date_range_end := ds.foldl dvMax d0
           total_days := (ordVal (ds.foldl dvMax d0) : Int)
                           - (ordVal (ds.foldl dvMin d0) : Int) + 1
           messages_per_day := (nrows f : Rat) /
             (((ordVal (ds.foldl dvMax d0) : Int)
                 - (ordVal (ds.foldl dvMin d0) : Int) + 1 : Int) : Rat)
           messages_per_participant := valueCountsDesc f.senderCol }

/--
`get_basic_stats`: `{}` (here `none`) when `self.df is None`; otherwise
it first coerces the `date` column in place, then computes min/max date,
`total_days = (max - min).days + 1` and
`messages_per_day = len(self.df) / total_days`.
-/
def get_basic_stats (a : Analyzer) : Analyzer × Option BasicStats :=
  match a.df with
  | none => (a, none)
  | some f =>
    ({ a with df := some { f with dateCol := convertDateCol f } },
     basicStatsOf a.participants.length f)

/-- `get_message_activity_by_hour`:
`self.df['hour'].value_counts().sort_index().to_dict()` (hour keys are
0–23 by construction). -/
def get_message_activity_by_hour (a : Analyzer) : Option (List (Nat × Nat)) :=
  match a.df with
  | none => none
  | some f =>
    some ((List.range 24).filterMap (fun h =>
      if 0 < f.hourCol.countP (fun x => x == h) then
        some (h, f.hourCol.countP (fun x => x == h))
      else none))

/-- `get_message_activity_by_day`:
`self.df['day_of_week'].value_counts().to_dict()`. -/
def get_message_activity_by_day (a : Analyzer) : Option (List (String × Nat)) :=
  match a.df with
  | none => none
  | some f => some (valueCountsDesc f.dayOfWeekCol)

/-- The dict returned by `get_emoji_analysis`. -/
structure EmojiResult where
  total_emojis : Nat
  emoji_per_message : List Nat
  top_emojis : List (List Char × Nat)
  messages_with_emojis : Nat
  deriving DecidableEq

/--
`get_emoji_analysis`, with the external `emoji.emoji_list` extraction
passed in as `el` (the list of emoji occurrences of a message body).
Attaches the per-message counts as the new column `emoji_count`.
-/
def get_emoji_analysis (el : List Char → List (List Char)) (a : Analyzer) :
    Analyzer × Option EmojiResult :=
  match a.df with
  | none => (a, none)
  | some f =>
    ({ a with df := some { f with
        emojiCountCol := some (f.messageCol.map (fun m => (el m).length)) } },
     some { total_emojis := (f.messageCol.map (fun m => (el m).length)).sum
            emoji_per_message := f.messageCol.map (fun m => (el m).length)
            top_emojis := mostCommon 10 (f.messageCol.map el).flatten
            messages_with_emojis :=
              (f.messageCol.map (fun m => (el m).length)).countP (fun c => decide (0 < c)) })

/-- `\w` of `re.findall(r'\b\w+\b', ...)` (ASCII model). -/
def isWordChar (c : Char) : Bool := c.isAlpha || c.isDigit || c == '_'

/-- `re.findall(r'\b\w+\b', s)`: the maximal runs of word characters. -/
def wordTokensAux : List Char → List Char → List (List Char)
  | [], acc => if acc.isEmpty then [] else [acc.reverse]
  | c :: rest, acc =>
    if isWordChar c then wordTokensAux rest (c :: acc)
    else if acc.isEmpty then wordTokensAux rest []
    else acc.reverse :: wordTokensAux rest []

def wordTokens (l : List Char) : List (List Char) := wordTokensAux l []

example : wordTokens (chars "Hello, world! 123_go") =
    [chars "Hello", chars "world", chars "123_go"] := by decide

/-- The dict returned by `get_word_analysis`. -/
structure WordResult where
  total_words : Nat
  unique_words : Nat
  avg_words_per_message : Rat
  top_words : List (List Char × Nat)
  deriving DecidableEq

/--
`get_word_analysis`, with the external `emoji.replace_emoji(message, '')`
passed in as `re0`.  Tokenizes each cleaned, lower-cased body and
accumulates counts; does not touch `self.df`.
-/
def get_word_analysis (re0 : List Char → List Char) (a : Analyzer) :
    Option WordResult :=
  match a.df with
  | none => none
  | some f =>
    some { total_words := ((f.messageCol.map (fun m => wordTokens (lowerList (re0 m)))).flatten).length
           unique_words :=
             (firstOccurrences ((f.messageCol.map (fun m => wordTokens (lowerList (re0 m)))).flatten)).length
           avg_words_per_message :=
             (((f.messageCol.map (fun m => wordTokens (lowerList (re0 m)))).flatten).length : Rat)
               / (nrows f : Rat)
           top_words := mostCommon 20 ((f.messageCol.map (fun m => wordTokens (lowerList (re0 m)))).flatten) }

/-- The dict returned by `get_sentiment_analysis`. -/
structure SentimentResult where
  avg_sentiment : Rat
  positive_messages : Nat
  negative_messages : Nat
  neutral_messages : Nat
  deriving DecidableEq

/--
`get_sentiment_analysis`, with the external
`TextBlob(message).sentiment.polarity` passed in as `pol`.  Attaches the
scores as the new column `sentiment`; buckets are `s > 0.1`,
`s < -0.1`, and `-0.1 <= s <= 0.1`.
-/
def get_sentiment_analysis (pol : List Char → Rat) (a : Analyzer) :
    Analyzer × Option SentimentResult :=
  match a.df with
  | none => (a, none)
  | some f =>
    ({ a with df := some { f with sentimentCol := some (f.messageCol.map pol) } },
     some { avg_sentiment := (f.messageCol.map pol).sum / ((f.messageCol.map pol).length : Rat)
            positive_messages := (f.messageCol.map pol).countP
              (fun s => decide ((1 : Rat)/10 < s))
            negative_messages := (f.messageCol.map pol).countP
              (fun s => decide (s < -((1 : Rat)/10)))
            neutral_messages := (f.messageCol.map pol).countP
              (fun s => decide (-((1 : Rat)/10) ≤ s) && decide (s ≤ (1 : Rat)/10)) })

/-- A line that fully matches the message-start grammar with a
parseable timestamp (so processing it always appends exactly one
message, regardless of the current state). -/
def fullMatchLine (l : List Char) : Bool :=
  match matchMessageStart (stripChars l) with
  | some (d, t, _, _) => (pyStrptimeDMYHMS (transformDate d ++ ' ' :: t)).isSome
  | none => false

/-- The message a fully matching line produces. -/
def msgOfLine (l : List Char) : Msg :=
  match matchMessageStart (stripChars l) with
  | some (d, t, s, m) =>
    match pyStrptimeDMYHMS (transformDate d ++ ' ' :: t) with
    | some dt => mkMsg dt s m
    | none => default
  | none => default

/-- A sample parsed instance used by several concrete statements. -/
def msgA : Msg := mkMsg ⟨2024, 1, 1, 9, 0, 0⟩ (chars "A") (chars "hi")

def analyzerA : Analyzer :=
  { messages := [msgA], participants := [chars "A"], df := some (mkFrame [msgA]) }

section Lemmas

/-- A line whose stripped form matches the grammar is not blank. -/
theorem strip_ne_nil_of_match {line : List Char}
    {q : List Char × List Char × List Char × List Char}
    (hm : matchMessageStart (stripChars line) = some q) :
    (stripChars line).isEmpty = false := by
  cases h : stripChars line with
  | nil => rw [h] at hm; simp [matchMessageStart, matchHeader] at hm
  | cons c rest => simp

/-- `processLine` on a matching line with a parseable timestamp appends
exactly one message and records the sender, whatever the state was. -/
theorem processLine_matched (st : ParseState) (line d t s m : List Char)
    (dt : DateTime)
    (hm : matchMessageStart (stripChars line) = some (d, t, s, m))
    (hts : pyStrptimeDMYHMS (transformDate d ++ ' ' :: t) = some dt) :
    processLine st line =
      { messages := st.messages ++ [mkMsg dt s m]
        participants := addParticipant st.participants (stripChars s)
        hasCurrent := true } := by
  unfold processLine
  simp only [strip_ne_nil_of_match hm, hm, hts, Bool.false_eq_true, if_false]

/-- `processLine` on a matching line whose timestamp fails to parse
leaves the state — including the current message — untouched. -/
theorem processLine_dropped (st : ParseState) (line d t s m : List Char)
    (hm : matchMessageStart (stripChars line) = some (d, t, s, m))
    (hts : pyStrptimeDMYHMS (transformDate d ++ ' ' :: t) = none) :
    processLine st line = st := by
  unfold processLine
  simp only [strip_ne_nil_of_match hm, hm, hts, Bool.false_eq_true, if_false]

end Lemmas

/--
Claim C1: the spec (and its test property "15/12/23 parses to year
2023") expects two-digit years to be expanded into the 2000s and the
line to parse.  The code's `date_str.replace('/', '/20', 1)` inserts
`20` after the FIRST slash, producing `15/2012/23`, which can never
match `%d/%m/%Y` (the month field cannot start with `2` followed by
`0`), so every line with a two-digit year is dropped by the
`except ValueError: continue` handler.  The same line with `15/12/2023`
parses fine — the guard `len(date_str.split('/')[2]) == 2` exists
precisely to support two-digit years, so the code is a slip against its
own intent.
-/
theorem C1_two_digit_year_line_is_dropped :
    transformDate (chars "15/12/23") = chars "15/2012/23"
    ∧ pyStrptimeDMYHMS (chars "15/2012/23 14:30:25") = none
    ∧ (parse_whatsapp_export initAnalyzer
        (Load.ok [chars "[15/12/23, 14:30:25] John: Hello"])).analyzer.messages = []
    ∧ (parse_whatsapp_export initAnalyzer
        (Load.ok [chars "[15/12/23, 14:30:25] John: Hello"])).returned = false
    ∧ ((parse_whatsapp_export initAnalyzer
        (Load.ok [chars "[15/12/2023, 14:30:25] John: Hello"])).analyzer.messages.map
          (fun m => m.year)) = [2023] := by
  decide

/--
Claim C2 counterexample: a non-existent file and a readable file with
nothing parseable produce the *same* parse outcome — the method catches
`FileNotFoundError` and returns `False`, exactly as it returns `False`
for the empty-result condition, so the two cases are not
distinguishable from the parse outcome alone.
-/
theorem C2_counterexample_same_outcome :
    (parse_whatsapp_export initAnalyzer Load.notFound).returned = false
    ∧ (parse_whatsapp_export initAnalyzer
        (Load.ok [chars "no message lines here"])).returned = false := by
  decide

/--
Claim C2 amended: both a missing file and a transcript with no
parseable messages make `parse_whatsapp_export` return `False` without
raising; the load-error case is reported only through `logging.error`,
so the caller can tell the cases apart from the log, not from the
returned value.  `True` is returned exactly when the accumulated
message list is non-empty.
-/
theorem C2_amended_false_return_logged_error (a : Analyzer)
    (lines : List (List Char)) :
    (parse_whatsapp_export a Load.notFound).returned = false
    ∧ (parse_whatsapp_export a Load.notFound).loggedError = true
    ∧ (parse_whatsapp_export a (Load.ok lines)).loggedError = false
    ∧ (parse_whatsapp_export a (Load.ok lines)).returned
        = !(runLines a lines).messages.isEmpty := by
  refine ⟨rfl, rfl, ?_, ?_⟩
  · simp only [parse_whatsapp_export]
    split <;> rfl
  · simp only [parse_whatsapp_export]
    split
    · next h => simp [h]
    · next h => simp [Bool.not_eq_true] at h; simp [h]

section FoldLemmas

/-- `processLine` on a non-matching, non-blank, non-placeholder line
with a current message appends it to the last message. -/
theorem processLine_continuation (st : ParseState) (l2 : List Char)
    (hc : st.hasCurrent = true)
    (hne : (stripChars l2).isEmpty = false)
    (hnm : matchMessageStart (stripChars l2) = none)
    (hsup : isSuppressedLine (stripChars l2) = false) :
    processLine st l2 = { st with messages := appendToLast (stripChars l2) st.messages } := by
  unfold processLine
  simp only [hne, Bool.false_eq_true, if_false, hnm, hc, hsup, if_true]

theorem processLine_full_messages (st : ParseState) (l : List Char)
    (h : fullMatchLine l = true) :
    (processLine st l).messages = st.messages ++ [msgOfLine l] := by
  unfold fullMatchLine at h
  cases hm : matchMessageStart (stripChars l) with
  | none => rw [hm] at h; simp at h
  | some q =>
    obtain ⟨d, t, s, m⟩ := q
    rw [hm] at h
    cases hts : pyStrptimeDMYHMS (transformDate d ++ ' ' :: t) with
    | none => simp [hts] at h
    | some dt =>
      rw [processLine_matched st l d t s m dt hm hts]
      simp only [msgOfLine, hm, hts]

theorem foldl_full_messages (B : List (List Char)) (st : ParseState)
    (h : ∀ l ∈ B, fullMatchLine l = true) :
    (B.foldl processLine st).messages = st.messages ++ B.map msgOfLine := by
  induction B generalizing st with
  | nil => simp
  | cons l B ih =>
    simp only [List.foldl_cons, List.map_cons]
    rw [ih (processLine st l) (fun x hx => h x (List.mem_cons_of_mem _ hx)),
        processLine_full_messages st l (h l (List.mem_cons_self _ _))]
    simp

theorem addParticipant_mem (ps : List (List Char)) (q p : List Char)
    (hp : p ∈ ps) : p ∈ addParticipant ps q := by
  unfold addParticipant
  split
  · exact hp
  · exact List.mem_append_left _ hp

theorem processLine_participants_mono (st : ParseState) (l : List Char)
    (p : List Char) (hp : p ∈ st.participants) :
    p ∈ (processLine st l).participants := by
  unfold processLine
  split
  · exact hp
  · split
    · split
      · exact hp
      · exact addParticipant_mem _ _ _ hp
    · split
      · split
        · exact hp
        · exact hp
      · exact hp

theorem foldl_participants_mono (B : List (List Char)) (st : ParseState)
    (p : List Char) (hp : p ∈ st.participants) :
    p ∈ (B.foldl processLine st).participants := by
  induction B generalizing st with
  | nil => exact hp
  | cons l B ih =>
    exact ih (processLine st l) (processLine_participants_mono st l p hp)

/-- The message list of the analyzer returned by a successful or
empty `Load.ok` parse is exactly the loop's message list. -/
theorem parse_ok_messages (a : Analyzer) (lines : List (List Char)) :
    (parse_whatsapp_export a (Load.ok lines)).analyzer.messages
      = (runLines a lines).messages := by
  simp only [parse_whatsapp_export]
  split <;> rfl

theorem parse_ok_participants (a : Analyzer) (lines : List (List Char)) :
    (parse_whatsapp_export a (Load.ok lines)).analyzer.participants
      = (runLines a lines).participants := by
  simp only [parse_whatsapp_export]
  split <;> rfl

end FoldLemmas

/--
Claim C3 counterexample: with transcripts
A = `[01/01/2024, 09:00:00] Alice: Hi` and
B = `[02/01/2024, 10:00:00] Bob: Yo`, parsing A and then B on one
instance yields a two-message corpus containing Alice's message, while
parsing B alone on a fresh instance yields one message — the Corpus is
NOT replaced wholesale on re-parse.
-/
theorem C3_counterexample_reparse_accumulates :
    (parse_whatsapp_export
        (parse_whatsapp_export initAnalyzer
          (Load.ok [chars "[01/01/2024, 09:00:00] Alice: Hi"])).analyzer
        (Load.ok [chars "[02/01/2024, 10:00:00] Bob: Yo"])).analyzer.messages
      ≠ (parse_whatsapp_export initAnalyzer
          (Load.ok [chars "[02/01/2024, 10:00:00] Bob: Yo"])).analyzer.messages := by
  decide

/--
Claim C3 amended: `parse_whatsapp_export` never resets
`self.messages`/`self.participants`, so state accumulates across
parses.  When every line of the second transcript B is a message-start
line with a parseable timestamp, the corpus after parsing A then B is
exactly A's corpus followed by the corpus a fresh instance would
produce from B, and every participant recorded by the A-parse is still
in the participant set afterwards.
-/
theorem C3_amended_reparse_appends (a : Analyzer) (A B : List (List Char))
    (hB : ∀ l ∈ B, fullMatchLine l = true) :
    (parse_whatsapp_export (parse_whatsapp_export a (Load.ok A)).analyzer
        (Load.ok B)).analyzer.messages
      = (parse_whatsapp_export a (Load.ok A)).analyzer.messages
        ++ (parse_whatsapp_export initAnalyzer (Load.ok B)).analyzer.messages
    ∧ ((parse_whatsapp_export a (Load.ok A)).analyzer.participants.all
        (fun p => (parse_whatsapp_export (parse_whatsapp_export a (Load.ok A)).analyzer
          (Load.ok B)).analyzer.participants.contains p)) = true := by
  constructor
  · rw [parse_ok_messages, parse_ok_messages, parse_ok_messages]
    unfold runLines
    rw [foldl_full_messages B _ hB, foldl_full_messages B _ hB]
    simp [parse_ok_messages, runLines, initAnalyzer]
  · rw [List.all_eq_true]
    intro p hp
    rw [parse_ok_participants]
    have hmem : p ∈ (runLines (parse_whatsapp_export a (Load.ok A)).analyzer B).participants := by
      unfold runLines
      exact foldl_participants_mono B _ p hp
    exact List.elem_iff.mpr hmem

theorem C3_amended_reparse_appends_witness :
    (parse_whatsapp_export (parse_whatsapp_export initAnalyzer
        (Load.ok [chars "[01/01/2024, 09:00:00] Alice: Hi"])).analyzer
        (Load.ok [chars "[02/01/2024, 10:00:00] Bob: Yo"])).analyzer.messages
      = (parse_whatsapp_export initAnalyzer
          (Load.ok [chars "[01/01/2024, 09:00:00] Alice: Hi"])).analyzer.messages
        ++ (parse_whatsapp_export initAnalyzer
          (Load.ok [chars "[02/01/2024, 10:00:00] Bob: Yo"])).analyzer.messages
    ∧ ((parse_whatsapp_export initAnalyzer
        (Load.ok [chars "[01/01/2024, 09:00:00] Alice: Hi"])).analyzer.participants.all
        (fun p => (parse_whatsapp_export (parse_whatsapp_export initAnalyzer
          (Load.ok [chars "[01/01/2024, 09:00:00] Alice: Hi"])).analyzer
          (Load.ok [chars "[02/01/2024, 10:00:00] Bob: Yo"])).analyzer.participants.contains p)) = true :=
  C3_amended_reparse_appends initAnalyzer
    [chars "[01/01/2024, 09:00:00] Alice: Hi"]
    [chars "[02/01/2024, 10:00:00] Bob: Yo"] (by decide)

section SenderLemmas

theorem dropWhile_head_not {α : Type} (p : α → Bool) (l : List α) (c : α)
    (tail : List α) (h : l.dropWhile p = c :: tail) : p c = false := by
  induction l with
  | nil => simp [List.dropWhile] at h
  | cons a l ih =>
    rw [List.dropWhile_cons] at h
    by_cases hp : p a = true
    · rw [if_pos hp] at h; exact ih h
    · rw [if_neg hp] at h
      injection h with h1 h2
      subst h1
      simpa using hp

/-- The sender capture of `matchMessageStart` is either empty or starts
with a non-whitespace character (the greedy `\s*` before the lazy
capture ate all leading whitespace). -/
theorem sender_shape (cs d t s m : List Char)
    (hm : matchMessageStart cs = some (d, t, s, m)) :
    s = [] ∨ ∃ c rest, s = c :: rest ∧ isSpace c = false := by
  unfold matchMessageStart at hm
  cases hh : matchHeader cs with
  | none => rw [hh] at hm; simp at hm
  | some q =>
    obtain ⟨d2, t2, r9⟩ := q
    rw [hh] at hm
    simp only [] at hm
    by_cases hcol : (r9.dropWhile isSpace).contains ':' = true
    · rw [if_pos hcol] at hm
      injection hm with hm
      obtain ⟨hd2, ht2, hs, hmm⟩ : d2 = d ∧ t2 = t
          ∧ (r9.dropWhile isSpace).takeWhile (fun c => c ≠ ':') = s
          ∧ (((r9.dropWhile isSpace).dropWhile (fun c => c ≠ ':')).drop 1).dropWhile isSpace = m := by
        have h1 := congrArg Prod.fst hm
        have h2 := congrArg (fun x => x.2.1) hm
        have h3 := congrArg (fun x => x.2.2.1) hm
        have h4 := congrArg (fun x => x.2.2.2) hm
        exact ⟨h1, h2, h3, h4⟩
      subst hs
      cases hr : r9.dropWhile isSpace with
      | nil => left; simp [hr]
      | cons c tail =>
        have hc : isSpace c = false := dropWhile_head_not isSpace r9 c tail hr
        by_cases hcc : c = ':'
        · left
          rw [List.takeWhile_cons]
          simp [hcc]
        · right
          refine ⟨c, tail.takeWhile (fun x => x ≠ ':'), ?_, hc⟩
          rw [List.takeWhile_cons]
          simp [hcc]
    · rw [if_neg hcol] at hm
      simp at hm

/-- Stripping a list whose head is not whitespace is non-empty. -/
theorem stripChars_cons_ne_nil (c : Char) (rest : List Char)
    (hc : isSpace c = false) : stripChars (c :: rest) ≠ [] := by
  unfold stripChars
  intro h
  have h1 : (c :: rest).dropWhile isSpace = c :: rest := by
    rw [List.dropWhile_cons, hc]
    simp
  rw [h1] at h
  have h2 : (c :: rest).reverse.dropWhile isSpace = [] := by
    have := congrArg List.reverse h
    simpa using this
  have h3 := List.dropWhile_eq_nil_iff.mp h2 c (by simp)
  rw [hc] at h3
  exact Bool.false_ne_true h3

end SenderLemmas

/--
Claim C4 counterexample: the sender capture `(.*?)` may be empty — the
line `[01/01/2024, 09:00:00] : hi` is successfully parsed into a
message whose (trimmed) sender is the empty string, so "`sender` is
never empty for a successfully parsed message" is false.
-/
theorem C4_counterexample_empty_sender :
    ((parse_whatsapp_export initAnalyzer
        (Load.ok [chars "[01/01/2024, 09:00:00] : hi"])).analyzer.messages.map
      (fun m => m.sender)) = [[]]
    ∧ (parse_whatsapp_export initAnalyzer
        (Load.ok [chars "[01/01/2024, 09:00:00] : hi"])).returned = true := by
  decide

/--
Claim C4 amended: the sender of every parsed message is the
whitespace-trimmed sender capture, and trimming never turns a non-empty
capture into an empty sender (the greedy `\s*` already removed leading
whitespace) — so the sender is empty exactly when the capture itself is
empty, i.e. when a colon immediately follows the timestamp bracket; it
is not guaranteed non-empty.
-/
theorem C4_amended_sender_is_trimmed_capture (st : ParseState)
    (line d t s m : List Char) (dt : DateTime)
    (hm : matchMessageStart (stripChars line) = some (d, t, s, m))
    (hts : pyStrptimeDMYHMS (transformDate d ++ ' ' :: t) = some dt) :
    (processLine st line).messages = st.messages ++ [mkMsg dt s m]
    ∧ (mkMsg dt s m).sender = stripChars s
    ∧ (stripChars s).isEmpty = s.isEmpty := by
  refine ⟨?_, rfl, ?_⟩
  · rw [processLine_matched st line d t s m dt hm hts]
  · rcases sender_shape (stripChars line) d t s m hm with h | ⟨c, rest, hs, hc⟩
    · subst h; rfl
    · subst hs
      have h1 := stripChars_cons_ne_nil c rest hc
      cases h2 : stripChars (c :: rest) with
      | nil => exact absurd h2 h1
      | cons x xs => simp

theorem C4_amended_sender_witness :
    (processLine { messages := [], participants := [], hasCurrent := false }
        (chars "[01/01/2024, 09:00:00] : hi")).messages
      = ([] : List Msg) ++ [mkMsg ⟨2024, 1, 1, 9, 0, 0⟩ [] (chars "hi")]
    ∧ (mkMsg ⟨2024, 1, 1, 9, 0, 0⟩ [] (chars "hi")).sender = stripChars []
    ∧ (stripChars ([] : List Char)).isEmpty = ([] : List Char).isEmpty :=
  C4_amended_sender_is_trimmed_capture
    { messages := [], participants := [], hasCurrent := false }
    (chars "[01/01/2024, 09:00:00] : hi")
    (chars "01/01/2024") (chars "09:00:00") [] (chars "hi")
    ⟨2024, 1, 1, 9, 0, 0⟩ (by decide) (by decide)

/--
Claim C5 counterexample: after a message-start line whose timestamp
fails to parse (`[15/12/23, 09:01:00] B: Bye` — two-digit year), the
previous message REMAINS current, so the following non-matching line
`world` is appended to it rather than discarded; dropping the `world`
line would have left the corpus unchanged, but the two parses differ.
-/
theorem C5_counterexample_stale_current_message :
    (parse_whatsapp_export initAnalyzer
        (Load.ok [chars "[01/01/2024, 09:00:00] A: Hello",
                  chars "[15/12/23, 09:01:00] B: Bye",
                  chars "world"])).analyzer.messages
      ≠ (parse_whatsapp_export initAnalyzer
          (Load.ok [chars "[01/01/2024, 09:00:00] A: Hello",
                    chars "[15/12/23, 09:01:00] B: Bye"])).analyzer.messages := by
  decide

/--
Claim C5 amended: when a line matches the message-start grammar but its
timestamp fails to parse, the line is dropped entirely AND the whole
state — including the current message — is left untouched; consequently
a subsequent non-matching (non-blank, non-placeholder) line is appended
to the still-current earlier message instead of being discarded.
-/
theorem C5_amended_dropped_line_keeps_current (st : ParseState)
    (line l2 d t s m : List Char)
    (hm : matchMessageStart (stripChars line) = some (d, t, s, m))
    (hts : pyStrptimeDMYHMS (transformDate d ++ ' ' :: t) = none)
    (hc : st.hasCurrent = true)
    (hne : (stripChars l2).isEmpty = false)
    (hnm : matchMessageStart (stripChars l2) = none)
    (hsup : isSuppressedLine (stripChars l2) = false) :
    processLine st line = st
    ∧ (processLine (processLine st line) l2).messages
        = appendToLast (stripChars l2) st.messages := by
  have hdrop := processLine_dropped st line d t s m hm hts
  refine ⟨hdrop, ?_⟩
  rw [hdrop, processLine_continuation st l2 hc hne hnm hsup]

theorem C5_amended_witness :
    processLine { messages := [msgA], participants := [chars "A"], hasCurrent := true }
        (chars "[15/12/23, 09:01:00] B: Bye")
      = { messages := [msgA], participants := [chars "A"], hasCurrent := true }
    ∧ (processLine (processLine
        { messages := [msgA], participants := [chars "A"], hasCurrent := true }
        (chars "[15/12/23, 09:01:00] B: Bye")) (chars "world")).messages
      = appendToLast (chars "world") [msgA] :=
  C5_amended_dropped_line_keeps_current
    { messages := [msgA], participants := [chars "A"], hasCurrent := true }
    (chars "[15/12/23, 09:01:00] B: Bye") (chars "world")
    (chars "15/12/23") (chars "09:01:00") (chars "B") (chars "Bye")
    (by decide) (by decide) rfl (by decide) (by decide) (by decide)

/--
Claim C6: every analyzer (`get_basic_stats`, the hourly and daily
activity analyzers, `get_emoji_analysis`, `get_word_analysis`,
`get_sentiment_analysis`) starts with `if self.df is None: return {}`,
so on an instance with no parsed Corpus each returns its empty/default
result without touching the state; all are total functions, so nothing
is raised (the divisions in the word and sentiment analyzers are only
reached when `self.df` exists, which in this code implies a non-empty
message list).
-/
theorem C6_analyzers_default_on_absent_corpus (a : Analyzer)
    (el : List Char → List (List Char)) (re0 : List Char → List Char)
    (pol : List Char → Rat) (hdf : a.df = none) :
    get_basic_stats a = (a, none)
    ∧ get_message_activity_by_hour a = none
    ∧ get_message_activity_by_day a = none
    ∧ get_emoji_analysis el a = (a, none)
    ∧ get_word_analysis re0 a = none
    ∧ get_sentiment_analysis pol a = (a, none) := by
  refine ⟨?_, ?_, ?_, ?_, ?_, ?_⟩ <;>
    simp [get_basic_stats, get_message_activity_by_hour,
      get_message_activity_by_day, get_emoji_analysis, get_word_analysis,
      get_sentiment_analysis, hdf]

theorem C6_analyzers_default_witness :
    get_basic_stats initAnalyzer = (initAnalyzer, none)
    ∧ get_message_activity_by_hour initAnalyzer = none
    ∧ get_message_activity_by_day initAnalyzer = none
    ∧ get_emoji_analysis (fun _ => []) initAnalyzer = (initAnalyzer, none)
    ∧ get_word_analysis (fun l => l) initAnalyzer = none
    ∧ get_sentiment_analysis (fun _ => 0) initAnalyzer = (initAnalyzer, none) :=
  C6_analyzers_default_on_absent_corpus initAnalyzer
    (fun _ => []) (fun l => l) (fun _ => 0) rfl

section FrameLemmas

theorem dateOf_toTs (v : DateVal) : (toTs v).dateOf = v.dateOf := by
  cases v <;> rfl

theorem ordVal_toTs (v : DateVal) : ordVal (toTs v) = ordVal v := by
  cases v <;> rfl

theorem map_dateOf_convert (f : Frame) :
    (convertDateCol f).map DateVal.dateOf = f.dateCol.map DateVal.dateOf := by
  unfold convertDateCol
  split
  · rw [List.map_map]
    exact List.map_congr_left (fun v _ => dateOf_toTs v)
  · rfl

theorem map_ordVal_convert (f : Frame) :
    (convertDateCol f).map ordVal = f.dateCol.map ordVal := by
  unfold convertDateCol
  split
  · rw [List.map_map]
    exact List.map_congr_left (fun v _ => ordVal_toTs v)
  · rfl

end FrameLemmas

/--
Claim C7 counterexample: `get_basic_stats` does NOT leave the
parser-produced `date` column unchanged — after parsing one message the
column holds `datetime.date` objects, and running `get_basic_stats`
replaces them in place by `pd.to_datetime` timestamps (a different
value), so an analyzer does overwrite parser output.
-/
theorem C7_counterexample_basic_stats_rewrites_date_column :
    ((get_basic_stats (parse_whatsapp_export initAnalyzer
        (Load.ok [chars "[01/01/2024, 09:00:00] Alice: Hi"])).analyzer).1.df.map
      (fun f => f.dateCol))
      ≠ ((parse_whatsapp_export initAnalyzer
          (Load.ok [chars "[01/01/2024, 09:00:00] Alice: Hi"])).analyzer.df.map
        (fun f => f.dateCol)) := by
  decide

/--
Claim C7 amended: the emoji and sentiment analyzers only attach their
own new derived columns (`emoji_count`, `sentiment`) and leave every
parser-produced column, the message list and the participant set
unchanged (the hour/day/word analyzers do not write to the frame at
all); `get_basic_stats` also preserves everything EXCEPT that it
coerces the `date` column in place from `datetime.date` objects to
pandas timestamps — a representation change that preserves the calendar
date of every row.
-/
theorem C7_amended_analyzers_additive_except_date_coercion
    (el : List Char → List (List Char)) (pol : List Char → Rat) (a : Analyzer) :
    (get_emoji_analysis el a).1.df
      = a.df.map (fun f => { f with
          emojiCountCol := some (f.messageCol.map (fun m => (el m).length)) })
    ∧ (get_emoji_analysis el a).1.messages = a.messages
    ∧ (get_emoji_analysis el a).1.participants = a.participants
    ∧ (get_sentiment_analysis pol a).1.df
      = a.df.map (fun f => { f with sentimentCol := some (f.messageCol.map pol) })
    ∧ (get_sentiment_analysis pol a).1.messages = a.messages
    ∧ (get_sentiment_analysis pol a).1.participants = a.participants
    ∧ (get_basic_stats a).1.df
      = a.df.map (fun f => { f with dateCol := convertDateCol f })
    ∧ (get_basic_stats a).1.messages = a.messages
    ∧ (get_basic_stats a).1.participants = a.participants
    ∧ ((get_basic_stats a).1.df.map (fun f => f.dateCol.map DateVal.dateOf))
      = a.df.map (fun f => f.dateCol.map DateVal.dateOf) := by
  cases hdf : a.df with
  | none =>
    refine ⟨?_, ?_, ?_, ?_, ?_, ?_, ?_, ?_, ?_, ?_⟩ <;>
      simp [get_emoji_analysis, get_sentiment_analysis, get_basic_stats, hdf]
  | some f =>
    refine ⟨?_, ?_, ?_, ?_, ?_, ?_, ?_, ?_, ?_, ?_⟩ <;>
      simp [get_emoji_analysis, get_sentiment_analysis, get_basic_stats, hdf,
        map_dateOf_convert]

section SentimentLemmas

theorem ite_decide_pos {p : Prop} [Decidable p] (hp : p) :
    (if decide p = true then (1 : Nat) else 0) = 1 := by simp [hp]

theorem ite_decide_neg {p : Prop} [Decidable p] (hp : ¬ p) :
    (if decide p = true then (1 : Nat) else 0) = 0 := by simp [hp]

theorem ite_and_pos {p q : Prop} [Decidable p] [Decidable q] (hp : p) (hq : q) :
    (if (decide p && decide q) = true then (1 : Nat) else 0) = 1 := by simp [hp, hq]

theorem ite_and_neg_left {p q : Prop} [Decidable p] [Decidable q] (hp : ¬ p) :
    (if (decide p && decide q) = true then (1 : Nat) else 0) = 0 := by simp [hp]

theorem ite_and_neg_right {p q : Prop} [Decidable p] [Decidable q] (hq : ¬ q) :
    (if (decide p && decide q) = true then (1 : Nat) else 0) = 0 := by simp [hq]

/-- The three sentiment buckets are a trichotomy: each score lands in
exactly one of `s > 0.1`, `s < -0.1`, `-0.1 <= s <= 0.1`. -/
theorem countP_sentiment_buckets (l : List Rat) :
    l.countP (fun s => decide ((1 : Rat)/10 < s))
      + l.countP (fun s => decide (s < -((1 : Rat)/10)))
      + l.countP (fun s => decide (-((1 : Rat)/10) ≤ s) && decide (s ≤ (1 : Rat)/10))
      = l.length := by
  induction l with
  | nil => rfl
  | cons x l ih =>
    simp only [List.countP_cons, List.length_cons]
    by_cases h1 : (1 : Rat)/10 < x
    · rw [ite_decide_pos h1,
          ite_decide_neg (show ¬ x < -((1 : Rat)/10) by linarith),
          ite_and_neg_right (show ¬ x ≤ (1 : Rat)/10 by linarith)]
      omega
    · by_cases h2 : x < -((1 : Rat)/10)
      · rw [ite_decide_neg h1, ite_decide_pos h2,
            ite_and_neg_left (show ¬ -((1 : Rat)/10) ≤ x by linarith)]
        omega
      · rw [ite_decide_neg h1, ite_decide_neg h2,
            ite_and_pos (le_of_not_lt h2) (le_of_not_lt h1)]
        omega

end SentimentLemmas

/--
Claim C8: the sentiment classification with thresholds `> 0.1`,
`< -0.1` and the inclusive middle partitions the messages: whenever
`get_sentiment_analysis` produces a result for a Corpus, the three
bucket counts sum exactly to the number of messages.
-/
theorem C8_sentiment_buckets_partition (pol : List Char → Rat) (a : Analyzer)
    (f : Frame) (hdf : a.df = some f) :
    ((get_sentiment_analysis pol a).2.map
      (fun r => r.positive_messages + r.negative_messages + r.neutral_messages))
      = some f.messageCol.length := by
  unfold get_sentiment_analysis
  rw [hdf]
  simp only [Option.map_some']
  rw [countP_sentiment_buckets (f.messageCol.map pol)]
  rw [List.length_map f.messageCol pol]

theorem C8_sentiment_buckets_witness :
    ((get_sentiment_analysis (fun _ => (0 : Rat)) analyzerA).2.map
      (fun r => r.positive_messages + r.negative_messages + r.neutral_messages))
      = some (mkFrame [msgA]).messageCol.length :=
  C8_sentiment_buckets_partition (fun _ => 0) analyzerA (mkFrame [msgA]) rfl

section MinMaxLemmas

theorem ordVal_dvMin (a b : DateVal) :
    ordVal (dvMin a b) = min (ordVal a) (ordVal b) := by
  unfold dvMin
  split <;> omega

theorem ordVal_dvMax (a b : DateVal) :
    ordVal (dvMax a b) = max (ordVal a) (ordVal b) := by
  unfold dvMax
  split <;> omega

theorem foldl_dvMin_ord (ds : List DateVal) (d0 : DateVal) :
    ordVal (ds.foldl dvMin d0) = (ds.map ordVal).foldl min (ordVal d0) := by
  induction ds generalizing d0 with
  | nil => rfl
  | cons v ds ih =>
    simp only [List.foldl_cons, List.map_cons]
    rw [ih (dvMin d0 v), ordVal_dvMin]

theorem foldl_dvMax_ord (ds : List DateVal) (d0 : DateVal) :
    ordVal (ds.foldl dvMax d0) = (ds.map ordVal).foldl max (ordVal d0) := by
  induction ds generalizing d0 with
  | nil => rfl
  | cons v ds ih =>
    simp only [List.foldl_cons, List.map_cons]
    rw [ih (dvMax d0 v), ordVal_dvMax]

theorem foldl_nat_min_le (xs : List Nat) (x : Nat) :
    xs.foldl min x ≤ x := by
  induction xs generalizing x with
  | nil => exact Nat.le_refl x
  | cons y xs ih =>
    simp only [List.foldl_cons]
    exact Nat.le_trans (ih (min x y)) (min_le_left x y)

theorem le_foldl_nat_max (xs : List Nat) (x : Nat) :
    x ≤ xs.foldl max x := by
  induction xs generalizing x with
  | nil => exact Nat.le_refl x
  | cons y xs ih =>
    simp only [List.foldl_cons]
    exact Nat.le_trans (le_max_left x y) (ih (max x y))

end MinMaxLemmas

/--
Claim C9: whenever `get_basic_stats` produces statistics for a Corpus
with a non-empty `date` column, `total_days` equals the ordinal span
`(max date - min date) + 1` of the ORIGINAL parser-produced dates (the
in-place timestamp coercion preserves every date), `total_days >= 1`
always, and `messages_per_day = total_messages / total_days` with
`total_messages` the number of rows.
-/
theorem C9_total_days_and_rate (a : Analyzer) (f : Frame)
    (hdf : a.df = some f) (hne : f.dateCol ≠ []) :
    ((get_basic_stats a).2.map (fun bs => bs.total_days))
      = some ((maxOrdOf f.dateCol : Int) - (minOrdOf f.dateCol : Int) + 1)
    ∧ ((get_basic_stats a).2.map (fun bs => decide (1 ≤ bs.total_days)))
      = some true
    ∧ ((get_basic_stats a).2.map (fun bs => bs.total_messages)) = some (nrows f)
    ∧ ((get_basic_stats a).2.map (fun bs =>
        bs.messages_per_day == (bs.total_messages : Rat) / (bs.total_days : Rat)))
      = some true := by
  have hcne : convertDateCol f ≠ [] := by
    unfold convertDateCol
    split
    · simpa [List.map_eq_nil_iff] using hne
    · exact hne
  obtain ⟨d0, ds, hd⟩ := List.exists_cons_of_ne_nil hcne
  have hmap : f.dateCol.map ordVal = ordVal d0 :: ds.map ordVal := by
    rw [← map_ordVal_convert f, hd]
    rfl
  have hmin : minOrdOf f.dateCol = (ds.map ordVal).foldl min (ordVal d0) := by
    unfold minOrdOf
    rw [hmap]
  have hmax : maxOrdOf f.dateCol = (ds.map ordVal).foldl max (ordVal d0) := by
    unfold maxOrdOf
    rw [hmap]
  have hminmax : minOrdOf f.dateCol ≤ maxOrdOf f.dateCol := by
    rw [hmin, hmax]
    exact Nat.le_trans (foldl_nat_min_le (ds.map ordVal) (ordVal d0))
      (le_foldl_nat_max (ds.map ordVal) (ordVal d0))
  have hrec : (get_basic_stats a).2 = basicStatsOf a.participants.length f := by
    unfold get_basic_stats
    rw [hdf]
  rw [hrec]
  unfold basicStatsOf
  rw [hd]
  dsimp only [Option.map_some']
  refine ⟨?_, ?_, rfl, ?_⟩
  · rw [foldl_dvMin_ord, foldl_dvMax_ord, ← hmin, ← hmax]
  · rw [foldl_dvMin_ord, foldl_dvMax_ord, ← hmin, ← hmax]
    simp only [Option.some.injEq, decide_eq_true_eq]
    omega
  · rw [beq_self_eq_true]

theorem C9_total_days_witness :
    ((get_basic_stats analyzerA).2.map (fun bs => bs.total_days))
      = some ((maxOrdOf (mkFrame [msgA]).dateCol : Int)
          - (minOrdOf (mkFrame [msgA]).dateCol : Int) + 1)
    ∧ ((get_basic_stats analyzerA).2.map (fun bs => decide (1 ≤ bs.total_days)))
      = some true
    ∧ ((get_basic_stats analyzerA).2.map (fun bs => bs.total_messages))
      = some (nrows (mkFrame [msgA]))
    ∧ ((get_basic_stats analyzerA).2.map (fun bs =>
        bs.messages_per_day == (bs.total_messages : Rat) / (bs.total_days : Rat)))
      = some true :=
  C9_total_days_and_rate analyzerA (mkFrame [msgA]) rfl (by decide)

/--
Claim C10: the placeholder filter is only applied to continuation
lines.  A line that matches the message-start grammar with a parseable
timestamp is emitted as a normal message even when its body is a
placeholder string such as "image omitted" (hypothesis `hph`), with the
placeholder text as its (trimmed) body; concretely, the one-line
transcript `[01/01/2024, 09:00:00] A: image omitted` yields a Corpus
whose basic stats count exactly this one message.
-/
theorem C10_placeholder_body_kept (st : ParseState)
    (line d t s m : List Char) (dt : DateTime)
    (hm : matchMessageStart (stripChars line) = some (d, t, s, m))
    (hts : pyStrptimeDMYHMS (transformDate d ++ ' ' :: t) = some dt)
    (hph : isSuppressedLine (stripChars m) = true) :
    (processLine st line).messages = st.messages ++ [mkMsg dt s m]
    ∧ (mkMsg dt s m).message = stripChars m
    ∧ ((get_basic_stats (parse_whatsapp_export initAnalyzer
        (Load.ok [chars "[01/01/2024, 09:00:00] A: image omitted"])).analyzer).2.map
          (fun bs => bs.total_messages)) = some 1 := by
  refine ⟨?_, rfl, by decide⟩
  rw [processLine_matched st line d t s m dt hm hts]

theorem C10_placeholder_body_witness :
    (processLine { messages := [], participants := [], hasCurrent := false }
        (chars "[01/01/2024, 09:00:00] A: image omitted")).messages
      = ([] : List Msg)
        ++ [mkMsg ⟨2024, 1, 1, 9, 0, 0⟩ (chars "A") (chars "image omitted")]
    ∧ (mkMsg ⟨2024, 1, 1, 9, 0, 0⟩ (chars "A") (chars "image omitted")).message
      = stripChars (chars "image omitted")
    ∧ ((get_basic_stats (parse_whatsapp_export initAnalyzer
        (Load.ok [chars "[01/01/2024, 09:00:00] A: image omitted"])).analyzer).2.map
          (fun bs => bs.total_messages)) = some 1 :=
  C10_placeholder_body_kept
    { messages := [], participants := [], hasCurrent := false }
    (chars "[01/01/2024, 09:00:00] A: image omitted")
    (chars "01/01/2024") (chars "09:00:00") (chars "A") (chars "image omitted")
    ⟨2024, 1, 1, 9, 0, 0⟩ (by decide) (by decide) (by decide)

end WA
